import Mathlib

/-!
Verification of the annuity core of `src/app.py` (BasicCompoundingCalculator).

The numeric domain of the Python code is IEEE floats; the specification's
contracts are stated as exact formula-level identities, so the arithmetic is
embedded over `ℚ` (exact rationals), the standard idealisation for such
formula-level claims.  Period counts are natural numbers (the code always
passes `int(months) ≥ 0`).
-/

namespace App

/-- Embedding of `fv_annuity_ordinary(P, r, n)` from `src/app.py` lines 9–18:
`if r == 0: return P * n` else `return P * ((1 + r) ** n - 1) / r`. -/
def fv_annuity_ordinary (P r : ℚ) (n : ℕ) : ℚ :=
  if r = 0 then P * n else P * ((1 + r) ^ n - 1) / r

/-- Embedding of `fv_annuity(P, r, n, due)` from `src/app.py` lines 20–27:
`base = fv_annuity_ordinary(P, r, n); return base * (1 + r) if due else base`. -/
def fv_annuity (P r : ℚ) (n : ℕ) (due : Bool) : ℚ :=
  let base := fv_annuity_ordinary P r n
  if due then base * (1 + r) else base

/-- The two return-periodicity choices of the radio button
`period_choice` (`"Per Bulan"` / `"Per Tahun"`), `src/app.py` line 57. -/
inductive PeriodChoice where
  | perBulan
  | perTahun
deriving DecidableEq

/-- Embedding of the monthly-rate conversion, `src/app.py` lines 64–68:
`r_month = r_percent / 100.0` when the choice is `"Per Bulan"`,
`r_month = (r_percent / 100.0) / 12.0` when it is `"Per Tahun"`. -/
def r_month (choice : PeriodChoice) (r_percent : ℚ) : ℚ :=
  match choice with
  | .perBulan => r_percent / 100
  | .perTahun => (r_percent / 100) / 12

/-- One row of the per-year table built in `src/app.py` lines 86–95: the dict
`{"Tahun": y, "Setoran Kumulatif": principal_y, "Future Value": fv_y,
"Bunga/Return": interest_y}`. -/
structure YearRecord where
  tahun : ℕ
  setoranKumulatif : ℚ
  futureValue : ℚ
  bungaReturn : ℚ
deriving DecidableEq

/-- Embedding of the per-year table loop, `src/app.py` lines 87–95:
`for y in range(1, years + 1): m = y * 12; fv_y = fv_annuity(P, r_month, m,
due=is_due); principal_y = P * m; interest_y = fv_y - principal_y;
records.append({...})`.  `years = months // 12` when the duration is entered
in months (line 54). -/
def records (P r : ℚ) (years : ℕ) (due : Bool) : List YearRecord :=
  (List.range years).map (fun i =>
    let y := i + 1
    let m := y * 12
    let fv_y := fv_annuity P r m due
    let principal_y := P * m
    let interest_y := fv_y - principal_y
    ⟨y, principal_y, fv_y, interest_y⟩)

/-- Embedding of the per-month progression, `src/app.py` line 106:
`progress = [fv_annuity(P, r_month, m, due=is_due) for m in range(1,
int(months) + 1)]`. -/
def progress (P r : ℚ) (months : ℕ) (due : Bool) : List ℚ :=
  (List.range months).map (fun i => fv_annuity P r (i + 1) due)

/-! ### Model of the Python values reaching `fmt_rp`

`fmt_rp` (`src/app.py` lines 29–34) accepts an arbitrary value, so the
embedding needs a small model of Python values and of the builtins it calls:
`float(x)`, `round(val)`, `int(...)`, the `,` thousands grouping of the
f-string, and `str.replace`.  Python floats are modelled as exact rationals
plus the special values `inf`, `-inf`, `nan`; exceptions are explicit. -/

/-- The Python exceptions that the builtins used by `fmt_rp` can raise. -/
inductive PyExc where
  | valueError
  | typeError
  | overflowError
deriving DecidableEq

/-- A Python float: a finite value (idealised as an exact rational) or one of
the special values `inf`, `-inf`, `nan`. -/
inductive PyFloat where
  | finite : ℚ → PyFloat
  | inf : PyFloat
  | negInf : PyFloat
  | nan : PyFloat
deriving DecidableEq

/-- The Python values the model feeds to `fmt_rp`: ints, floats, strings and
`None` (a representative non-convertible object). -/
inductive PyVal where
  | intV : ℤ → PyVal
  | floatV : PyFloat → PyVal
  | strV : String → PyVal
  | noneV : PyVal
deriving DecidableEq

/-- Value of a list of decimal digit characters, most significant first. -/
def digitsVal (cs : List Char) : ℕ :=
  cs.foldl (fun a c => 10 * a + (c.toNat - 48)) 0

/-- Parse an optionally signed, nonempty run of digits as an exponent. -/
def parseExp (cs : List Char) : Option ℤ :=
  let p : ℤ × List Char :=
    match cs with
    | '+' :: rest => (1, rest)
    | '-' :: rest => (-1, rest)
    | _ => (1, cs)
  if p.2 ≠ [] ∧ p.2.all Char.isDigit then some (p.1 * digitsVal p.2) else none

/-- Parse a decimal mantissa: digits with at most one point, at least one
digit overall. -/
def parseMantissa (cs : List Char) : Option ℚ :=
  match cs.splitOn '.' with
  | [ip] =>
      if ip ≠ [] ∧ ip.all Char.isDigit then some (digitsVal ip) else none
  | [ip, fp] =>
      if ip ++ fp ≠ [] ∧ ip.all Char.isDigit ∧ fp.all Char.isDigit then
        some ((digitsVal ip : ℚ) + (digitsVal fp : ℚ) / 10 ^ fp.length)
      else none
  | _ => none

/-- Parse an unsigned decimal literal with optional `e`-exponent. -/
def parseDecimalQ (cs : List Char) : Option ℚ :=
  match cs.splitOn 'e' with
  | [m] => parseMantissa m
  | [m, ex] => do
      let mv ← parseMantissa m
      let ev ← parseExp ex
      some (mv * (10 : ℚ) ^ ev)
  | _ => none

/-- Modelled from CPython `float(str)`: surrounding spaces stripped, optional
sign, then a decimal literal (optional fraction and exponent) or one of the
case-insensitive words `inf`, `infinity`, `nan`.  (Digit-group underscores
and non-space whitespace are omitted from the model.) -/
def parseFloatStr (s : String) : Option PyFloat :=
  let trimmed := ((s.toList.dropWhile (· = ' ')).reverse.dropWhile (· = ' ')).reverse
  let sp : Bool × List Char :=
    match trimmed with
    | '+' :: rest => (false, rest)
    | '-' :: rest => (true, rest)
    | _ => (false, trimmed)
  let lower := sp.2.map Char.toLower
  if lower = ['i', 'n', 'f'] ∨ lower = ['i', 'n', 'f', 'i', 'n', 'i', 't', 'y'] then
    some (if sp.1 then .negInf else .inf)
  else if lower = ['n', 'a', 'n'] then some .nan
  else
    match parseDecimalQ lower with
    | some q => some (.finite (if sp.1 then -q else q))
    | none => none

/-- Modelled from CPython `float(x)`: ints convert exactly, floats pass
through, strings are parsed (`ValueError` on failure), `None` raises
`TypeError`. -/
def float_builtin (x : PyVal) : Except PyExc PyFloat :=
  match x with
  | .intV i => .ok (.finite i)
  | .floatV f => .ok f
  | .strV s =>
      match parseFloatStr s with
      | some f => .ok f
      | none => .error .valueError
  | .noneV => .error .typeError

/-- Modelled from CPython `str(x)`.  Only the string case is exercised by the
claims; the finite-float rendering is a stand-in (Python's shortest-repr
algorithm is not modelled). -/
def str_builtin (x : PyVal) : String :=
  match x with
  | .strV s => s
  | .intV i => toString i
  | .floatV (.finite q) => toString q
  | .floatV .inf => "inf"
  | .floatV .negInf => "-inf"
  | .floatV .nan => "nan"
  | .noneV => "None"

/-- Floor of a rational, computed by floor-division of numerator by
denominator (the denominator of a `ℚ` is positive, so this is `⌊q⌋`). -/
def qfloor (q : ℚ) : ℤ :=
  q.num.fdiv q.den

/-- Round-half-to-even on rationals (the rounding of one-argument Python
`round`).  With `fl = ⌊q⌋` the fractional part is
`(q.num - fl * q.den) / q.den`, so comparing it with `1/2` is comparing
`2 * (q.num - fl * q.den)` with `q.den` (the denominator is positive). -/
def pyRoundHalfEven (q : ℚ) : ℤ :=
  let fl := qfloor q
  let twiceRem := 2 * (q.num - fl * (q.den : ℤ))
  if twiceRem < (q.den : ℤ) then fl
  else if (q.den : ℤ) < twiceRem then fl + 1
  else if fl % 2 = 0 then fl else fl + 1

/-- Modelled from CPython `round(x)` on a float: banker's rounding on finite
values, `OverflowError` on `±inf`, `ValueError` on `nan`. -/
def round_builtin (v : PyFloat) : Except PyExc ℤ :=
  match v with
  | .finite q => .ok (pyRoundHalfEven q)
  | .inf => .error .overflowError
  | .negInf => .error .overflowError
  | .nan => .error .valueError

/-- Insert a `,` before every third digit of a least-significant-first digit
list (`k` counts digits already emitted). -/
def commaRev : List Char → ℕ → List Char
  | [], _ => []
  | c :: rest, k =>
      if k % 3 = 0 ∧ k ≠ 0 then ',' :: c :: commaRev rest (k + 1)
      else c :: commaRev rest (k + 1)

/-- Modelled rendering of `f"{m:,.0f}"` for an integer `m`: decimal digits
grouped in threes by commas, with a leading minus sign when negative. -/
def intComma (m : ℤ) : String :=
  let ds := (toString m.natAbs).toList
  let grouped := (commaRev ds.reverse 0).reverse
  (if m < 0 then "-" else "") ++ String.mk grouped

/-- Model of the call `.replace(",", ".")` on `src/app.py` line 34: for a
single-character pattern, Python `str.replace` turns every occurrence of the
character into the replacement, i.e. a character map. -/
def replaceCommaDot (s : String) : String :=
  String.mk (s.toList.map (fun c => if c = ',' then '.' else c))

/-- Embedding of `fmt_rp(x)` from `src/app.py` lines 29–34.  The `try` block
contains only `val = float(x)` and catches `(ValueError, TypeError)` — over
this value domain those are exactly the errors `float` can produce, so the
model catches every `float_builtin` error and returns `str(x)`.  The
`round`/format step on line 34 sits OUTSIDE the `try`, so its exceptions
propagate to the caller (the `.error` branch). -/
def fmt_rp (x : PyVal) : Except PyExc String :=
  match float_builtin x with
  | .error _ => .ok (str_builtin x)
  | .ok v =>
      match round_builtin v with
      | .error e => .error e
      | .ok m => .ok (replaceCommaDot ("Rp" ++ intComma m))

/-! ### Claims -/

/-- Claim C1: for every deposit `P ≥ 0` and every positive `n`,
`fv_annuity_ordinary` returns `P * n` exactly when `r = 0`, and
`P * ((1 + r) ^ n - 1) / r` when `r ≠ 0`. -/
theorem fv_annuity_ordinary_spec (P r : ℚ) (n : ℕ) (hP : 0 ≤ P) (hn : 1 ≤ n) :
    (r = 0 → fv_annuity_ordinary P r n = P * n) ∧
    (r ≠ 0 → fv_annuity_ordinary P r n = P * ((1 + r) ^ n - 1) / r) := by
  constructor <;> intro h <;> simp [fv_annuity_ordinary, h]

/-- Witness for C1 at `P = 3`, `r = 0`, `n = 5`. -/
theorem fv_annuity_ordinary_spec_witness :
    (0 : ℚ) ≤ 3 ∧ 1 ≤ 5 ∧
      (((0 : ℚ) = 0 → fv_annuity_ordinary 3 0 5 = 3 * 5) ∧
        ((0 : ℚ) ≠ 0 → fv_annuity_ordinary 3 0 5 = 3 * ((1 + 0) ^ 5 - 1) / 0)) :=
  ⟨by norm_num, by norm_num, fv_annuity_ordinary_spec 3 0 5 (by norm_num) (by norm_num)⟩

/-- Claim C2: `fv_annuity` with `due = false` returns exactly
`fv_annuity_ordinary P r n`, and with `due = true` returns exactly
`fv_annuity_ordinary P r n * (1 + r)`. -/
theorem fv_annuity_due_spec (P r : ℚ) (n : ℕ) (hn : 1 ≤ n) :
    fv_annuity P r n false = fv_annuity_ordinary P r n ∧
    fv_annuity P r n true = fv_annuity_ordinary P r n * (1 + r) := by
  simp [fv_annuity]

/-- Witness for C2 at `P = 2`, `r = 3`, `n = 4`. -/
theorem fv_annuity_due_spec_witness :
    1 ≤ 4 ∧
      (fv_annuity 2 3 4 false = fv_annuity_ordinary 2 3 4 ∧
        fv_annuity 2 3 4 true = fv_annuity_ordinary 2 3 4 * (1 + 3)) :=
  ⟨by norm_num, fv_annuity_due_spec 2 3 4 (by norm_num)⟩

/-- Claim C3 as stated is false: at `P = 0` (with `r = 1 > 0`) the map
`n ↦ fv_annuity 0 r n due` is constantly `0`, hence not strictly
increasing from `n = 1` to `n = 2`. -/
theorem fv_annuity_not_strictMono_zero_deposit :
    ¬ fv_annuity 0 1 1 false < fv_annuity 0 1 2 false := by
  norm_num [fv_annuity, fv_annuity_ordinary]

/-- Claim C3 amended with `P > 0`: for every `P > 0`, `r > 0`, either timing
mode and every `n ≥ 1`, `fv_annuity P r n due < fv_annuity P r (n + 1) due`. -/
theorem fv_annuity_strictMono (P r : ℚ) (n : ℕ) (due : Bool)
    (hP : 0 < P) (hr : 0 < r) (hn : 1 ≤ n) :
    fv_annuity P r n due < fv_annuity P r (n + 1) due := by
  have hr0 : r ≠ 0 := ne_of_gt hr
  have h1r : (1 : ℚ) < 1 + r := by linarith
  have hpow : (1 + r) ^ n < (1 + r) ^ (n + 1) := by
    rw [pow_succ]
    exact lt_mul_of_one_lt_right (pow_pos (by linarith) n) h1r
  have hbase : fv_annuity_ordinary P r n < fv_annuity_ordinary P r (n + 1) := by
    simp only [fv_annuity_ordinary, if_neg hr0]
    gcongr
  cases due with
  | false => simpa [fv_annuity] using hbase
  | true =>
      simp only [fv_annuity, if_pos]
      exact mul_lt_mul_of_pos_right hbase (by linarith)

/-- Witness for the amended C3 at `P = 1`, `r = 1`, `n = 1`, ordinary mode. -/
theorem fv_annuity_strictMono_witness :
    (0 : ℚ) < 1 ∧ 1 ≤ 1 ∧ fv_annuity 1 1 1 false < fv_annuity 1 1 (1 + 1) false :=
  ⟨by norm_num, le_refl 1, fv_annuity_strictMono 1 1 1 false (by norm_num) (by norm_num) (le_refl 1)⟩

/-- Claim C4 as stated is false: `fmt_rp (float "inf")` raises.  `float(x)`
succeeds on an infinite float, and `round` on line 34 sits outside the
`try` block, so its `OverflowError` propagates to the caller. -/
theorem fmt_rp_raises_on_inf : fmt_rp (.floatV .inf) = .error .overflowError := rfl

/-- Claim C4 amended: `fmt_rp` never raises on inputs whose float conversion
fails (it returns `str(x)` unchanged), and never raises on inputs converting
to a FINITE float (it returns the formatted string); only inputs converting
to `±inf`/`nan` make it raise. -/
theorem fmt_rp_graceful (x : PyVal) :
    (∀ e, float_builtin x = .error e → fmt_rp x = .ok (str_builtin x)) ∧
    (∀ q, float_builtin x = .ok (.finite q) →
      fmt_rp x = .ok (replaceCommaDot ("Rp" ++ intComma (pyRoundHalfEven q)))) := by
  constructor
  · intro e he
    simp [fmt_rp, he]
  · intro q hq
    simp [fmt_rp, hq, round_builtin]

/-- Witness for the amended C4 at the failing conversion `"abc"` and the
finite conversion `7`. -/
theorem fmt_rp_graceful_witness :
    fmt_rp (.strV "abc") = .ok (str_builtin (.strV "abc")) ∧
    fmt_rp (.intV 7) = .ok (replaceCommaDot ("Rp" ++ intComma (pyRoundHalfEven 7))) :=
  ⟨(fmt_rp_graceful (.strV "abc")).1 .valueError rfl,
   (fmt_rp_graceful (.intV 7)).2 7 rfl⟩

/-- Claim C5 as stated is false: for a negative deposit the due result is
strictly below the ordinary one (`P = -1`, `r = 1`, `n = 1` gives `-2 < -1`). -/
theorem fv_annuity_due_not_ge_neg_deposit :
    ¬ fv_annuity (-1) 1 1 true ≥ fv_annuity (-1) 1 1 false := by
  norm_num [fv_annuity, fv_annuity_ordinary]

/-- Claim C5 amended with `P ≥ 0`: for every `P ≥ 0`, `r ≥ 0` and `n ≥ 1`,
the annuity-due result dominates the ordinary result. -/
theorem fv_annuity_due_ge_ordinary (P r : ℚ) (n : ℕ) (hP : 0 ≤ P) (hr : 0 ≤ r)
    (hn : 1 ≤ n) :
    fv_annuity P r n true ≥ fv_annuity P r n false := by
  have hbase : 0 ≤ fv_annuity_ordinary P r n := by
    rw [fv_annuity_ordinary]
    split_ifs with h
    · positivity
    · have hrpos : 0 < r := lt_of_le_of_ne hr (Ne.symm h)
      have hpow : (1 : ℚ) ≤ (1 + r) ^ n := one_le_pow₀ (by linarith)
      exact div_nonneg (mul_nonneg hP (by linarith)) hrpos.le
  simp only [fv_annuity, if_pos, if_neg]
  exact le_mul_of_one_le_right hbase (by linarith)

/-- Witness for the amended C5 at `P = 1`, `r = 1`, `n = 1`. -/
theorem fv_annuity_due_ge_ordinary_witness :
    (0 : ℚ) ≤ 1 ∧ 1 ≤ 1 ∧ fv_annuity 1 1 1 true ≥ fv_annuity 1 1 1 false :=
  ⟨by norm_num, le_refl 1, fv_annuity_due_ge_ordinary 1 1 1 (by norm_num) (by norm_num) (le_refl 1)⟩

/-- Claim C6: at `n = 1` and any rate `r > -1`, the ordinary future value is
exactly `P` and the due future value is exactly `P * (1 + r)`. -/
theorem fv_annuity_boundary_one (P r : ℚ) (h : -1 < r) :
    fv_annuity_ordinary P r 1 = P ∧ fv_annuity P r 1 true = P * (1 + r) := by
  have h1 : fv_annuity_ordinary P r 1 = P := by
    rw [fv_annuity_ordinary]
    split_ifs with h0
    · simp
    · field_simp
  exact ⟨h1, by simp [fv_annuity, h1]⟩

/-- Witness for C6 at `P = 5`, `r = 1`. -/
theorem fv_annuity_boundary_one_witness :
    (-1 : ℚ) < 1 ∧ (fv_annuity_ordinary 5 1 1 = 5 ∧ fv_annuity 5 1 1 true = 5 * (1 + 1)) :=
  ⟨by norm_num, fv_annuity_boundary_one 5 1 (by norm_num)⟩

/-- Claim C10: outside the documented precondition, `n = 0` is total and
returns zero in both timing modes, for every `P` and `r > -1`. -/
theorem fv_annuity_zero_periods (P r : ℚ) (due : Bool) (h : -1 < r) :
    fv_annuity_ordinary P r 0 = 0 ∧ fv_annuity P r 0 due = 0 := by
  have h0 : fv_annuity_ordinary P r 0 = 0 := by
    rw [fv_annuity_ordinary]
    split_ifs <;> simp
  refine ⟨h0, ?_⟩
  cases due <;> simp [fv_annuity, h0]

/-- Witness for C10 at `P = 3`, `r = 1`, due mode. -/
theorem fv_annuity_zero_periods_witness :
    (-1 : ℚ) < 1 ∧ (fv_annuity_ordinary 3 1 0 = 0 ∧ fv_annuity 3 1 0 true = 0) :=
  ⟨by norm_num, fv_annuity_zero_periods 3 1 true (by norm_num)⟩

/-- Claim C7: the rate conversion is linear, not compounding — an annual
percentage `a` becomes the per-month rate `a / 100 / 12`, and a monthly
percentage `p` becomes `p / 100` with no further conversion. -/
theorem r_month_conversion :
    (∀ a : ℚ, r_month .perTahun a = a / 100 / 12) ∧
    (∀ p : ℚ, r_month .perBulan p = p / 100) :=
  ⟨fun _ => rfl, fun _ => rfl⟩

/-- Claim C8: for `1 ≤ months ≤ 600` the per-month progression has exactly
`months` entries, entry `i` (zero-based) holding `fv_annuity P r (i+1) due`
(so entries ascend by month index `1..months`); the per-year table has
exactly `months / 12` rows, row `i` holding year `i + 1` computed at
`n = (i + 1) * 12` — in particular the last row uses
`n = (months / 12) * 12`. -/
theorem progression_spec (P r : ℚ) (months : ℕ) (due : Bool)
    (h1 : 1 ≤ months) (h2 : months ≤ 600) :
    (progress P r months due).length = months ∧
    (∀ i, i < months →
      (progress P r months due)[i]? = some (fv_annuity P r (i + 1) due)) ∧
    (records P r (months / 12) due).length = months / 12 ∧
    (∀ i, i < months / 12 →
      (records P r (months / 12) due).get? i =
        some ⟨i + 1, P * (((i + 1) * 12 : ℕ) : ℚ), fv_annuity P r ((i + 1) * 12) due,
          fv_annuity P r ((i + 1) * 12) due - P * (((i + 1) * 12 : ℕ) : ℚ)⟩) := by
  refine ⟨by simp [progress], fun i hi => ?_, by simp [records], fun i hi => ?_⟩
  · simp [progress, List.getElem?_map, List.getElem?_range, hi]
  · simp [records, List.getElem?_map, List.getElem?_range, hi]

/-- Witness for C8 at `P = 2`, `r = 1`, `months = 24`, ordinary mode. -/
theorem progression_spec_witness :
    1 ≤ 24 ∧ 24 ≤ 600 ∧
      ((progress 2 1 24 false).length = 24 ∧
        (∀ i, i < 24 →
          (progress 2 1 24 false)[i]? = some (fv_annuity 2 1 (i + 1) false)) ∧
        (records 2 1 (24 / 12) false).length = 24 / 12 ∧
        (∀ i, i < 24 / 12 →
          (records 2 1 (24 / 12) false).get? i =
            some ⟨i + 1, 2 * (((i + 1) * 12 : ℕ) : ℚ), fv_annuity 2 1 ((i + 1) * 12) false,
              fv_annuity 2 1 ((i + 1) * 12) false - 2 * (((i + 1) * 12 : ℕ) : ℚ)⟩)) :=
  ⟨by norm_num, by norm_num, progression_spec 2 1 24 false (by norm_num) (by norm_num)⟩

/-- Claim C9: `fmt_rp 1234567` yields the dot-grouped string
`"Rp1.234.567"` (digits of the rounded integer in blocks of three separated
by dots), and `fmt_rp "abc"` yields `"abc"` unchanged. -/
theorem fmt_rp_examples :
    fmt_rp (.intV 1234567) = .ok "Rp1.234.567" ∧ fmt_rp (.strV "abc") = .ok "abc" :=
  ⟨rfl, rfl⟩

end App
